import Mathlib

/-!
# Verification of the todo HTTP service

Shallow embedding of the two source files of the repository:

* `src/server.js` — the HTTP request router/handler (five routes over a
  `todos` collection, JSON body parsing, error handling).
* `src/db.js` (the unnamed source file) — the connection manager
  (`connectDB` / `getDB`).

Modelling conventions:

* JSON values are the inductive `Json`; numbers are modelled as integers
  (no claim involves fractional numbers) and timestamps (`Date`) as
  integer clock values.
* A MongoDB document is an association list `Doc` with unique keys
  (JavaScript objects cannot carry duplicate keys, and our JSON parser
  deduplicates with last-value-wins exactly as `JSON.parse` does).
* The `todos` collection is a `List Doc`; the stored `_id` is the
  canonical (lowercase) 24-hex-character ObjectId string.
* `new ObjectId(s)` of the mongodb driver accepts a 24-character hex
  string and throws otherwise; `objectIdParse` models that.
* Fallible JavaScript expressions are `Except String α`, the `String`
  being the thrown error message (`err.message`).  The exact message
  texts of library errors are paraphrases; claims depend only on which
  branch throws, not on library message wording.
* Effects on the collection are explicit state passing: each handler
  maps (collection, request) to (new collection, HTTP status, response
  body).  `new Date()` is the parameter `now`; the identifier the
  storage layer would generate for an insert is the parameter `newId`.
-/

/-- JSON values (numbers as integers, see header). -/
inductive Json where
  | null : Json
  | bool (b : Bool) : Json
  | num (n : Int) : Json
  | str (s : String) : Json
  | arr (elems : List Json) : Json
  | obj (fields : List (String × Json)) : Json

/-- A document / JavaScript object: association list of fields. -/
abbrev Doc := List (String × Json)

/-- Replace the value of key `k` (first occurrence) or append the binding:
JavaScript property assignment on an object. -/
def setField : Doc → String → Json → Doc
  | [], k, v => [(k, v)]
  | (k0, v0) :: rest, k, v =>
    if k0 = k then (k, v) :: rest else (k0, v0) :: setField rest k v

/-- Property lookup (first occurrence; keys are unique in practice). -/
def lookupField : Doc → String → Option Json
  | [], _ => none
  | (k0, v0) :: rest, k => if k0 = k then some v0 else lookupField rest k

/-- Last binding of key `k`, used to reason about `setField` folds. -/
def assocLast : Doc → String → Option Json
  | [], _ => none
  | (k0, v0) :: rest, k =>
    match assocLast rest k with
    | some v => some v
    | none => if k0 = k then some v0 else none

/-- Whitespace accepted by `JSON.parse`. -/
def isJsonWs (c : Char) : Bool :=
  c = ' ' || c = '\n' || c = '\t' || c = '\r'

def skipWs : List Char → List Char
  | [] => []
  | c :: cs => if isJsonWs c then skipWs cs else c :: cs

/-- The literal brace characters, kept out of string literals. -/
def lbrace : Char := Char.ofNat 123

def rbrace : Char := Char.ofNat 125

/-- Does `cs` start with the characters of `p`? Returns the rest. -/
def stripLit : List Char → List Char → Option (List Char)
  | [], cs => some cs
  | _, [] => none
  | p :: ps, c :: cs => if c = p then stripLit ps cs else none

/-- Parse the remainder of a JSON string literal (opening quote already
consumed), handling the common escapes. -/
def parseStrRest : Nat → List Char → List Char → Except String (String × List Char)
  | 0, _, _ => .error "Unexpected end of JSON input"
  | _ + 1, _, [] => .error "Unterminated string in JSON"
  | f + 1, acc, c :: rest =>
    if c = '"' then .ok (String.mk acc.reverse, rest)
    else if c = '\\' then
      match rest with
      | [] => .error "Unterminated string in JSON"
      | e :: rest2 =>
        let ec := if e = 'n' then '\n'
          else if e = 't' then '\t'
          else if e = 'r' then '\r'
          else e
        parseStrRest f (ec :: acc) rest2
    else parseStrRest f (c :: acc) rest

/-- Consume decimal digits, accumulating their value. -/
def takeDigits : List Char → Nat → Nat × List Char
  | [], acc => (acc, [])
  | c :: cs, acc =>
    if c.isDigit then takeDigits cs (acc * 10 + (c.toNat - 48)) else (acc, c :: cs)

/-- Is there at least one leading digit? -/
def hasDigit : List Char → Bool
  | [] => false
  | c :: _ => c.isDigit

mutual

/-- Recursive-descent JSON value parser (fuel-indexed), modelling
`JSON.parse`.  Numbers are integers (see file header). -/
def parseVal : Nat → List Char → Except String (Json × List Char)
  | 0, _ => .error "JSON too deeply nested"
  | f + 1, cs =>
    match skipWs cs with
    | [] => .error "Unexpected end of JSON input"
    | c :: rest =>
      if c = 'n' then
        match stripLit ['u', 'l', 'l'] rest with
        | some rest2 => .ok (Json.null, rest2)
        | none => .error "Unexpected token n in JSON"
      else if c = 't' then
        match stripLit ['r', 'u', 'e'] rest with
        | some rest2 => .ok (Json.bool true, rest2)
        | none => .error "Unexpected token t in JSON"
      else if c = 'f' then
        match stripLit ['a', 'l', 's', 'e'] rest with
        | some rest2 => .ok (Json.bool false, rest2)
        | none => .error "Unexpected token f in JSON"
      else if c = '"' then
        match parseStrRest (rest.length + 1) [] rest with
        | .ok (s, rest2) => .ok (Json.str s, rest2)
        | .error e => .error e
      else if c = '-' then
        if hasDigit rest then
          let (n, rest2) := takeDigits rest 0
          .ok (Json.num (-(n : Int)), rest2)
        else .error "Unexpected token - in JSON"
      else if c.isDigit then
        let (n, rest2) := takeDigits (c :: rest) 0
        .ok (Json.num (n : Int), rest2)
      else if c = lbrace then
        match skipWs rest with
        | c2 :: rest2 =>
          if c2 = rbrace then .ok (Json.obj [], rest2)
          else parseObjRest f (c2 :: rest2) []
        | [] => .error "Unexpected end of JSON input"
      else if c = '[' then
        match skipWs rest with
        | c2 :: rest2 =>
          if c2 = ']' then .ok (Json.arr [], rest2)
          else parseArrRest f (c2 :: rest2) []
        | [] => .error "Unexpected end of JSON input"
      else .error "Unexpected token in JSON"

/-- Parse object members; duplicates overwrite (last value wins), as in
JavaScript. `acc` holds the members parsed so far. -/
def parseObjRest : Nat → List Char → Doc → Except String (Json × List Char)
  | 0, _, _ => .error "JSON too deeply nested"
  | f + 1, cs, acc =>
    match skipWs cs with
    | '"' :: rest =>
      match parseStrRest (rest.length + 1) [] rest with
      | .error e => .error e
      | .ok (k, rest2) =>
        match skipWs rest2 with
        | ':' :: rest3 =>
          match parseVal f rest3 with
          | .error e => .error e
          | .ok (v, rest4) =>
            let acc2 := setField acc k v
            match skipWs rest4 with
            | ',' :: rest5 => parseObjRest f rest5 acc2
            | c :: rest5 =>
              if c = rbrace then .ok (Json.obj acc2, rest5)
              else .error "Expected comma or closing brace in JSON object"
            | [] => .error "Unexpected end of JSON input"
        | _ => .error "Expected colon in JSON object"
    | _ => .error "Expected property name in JSON object"

/-- Parse array elements. -/
def parseArrRest : Nat → List Char → List Json → Except String (Json × List Char)
  | 0, _, _ => .error "JSON too deeply nested"
  | f + 1, cs, acc =>
    match parseVal f cs with
    | .error e => .error e
    | .ok (v, rest) =>
      match skipWs rest with
      | ',' :: rest2 => parseArrRest f rest2 (acc ++ [v])
      | ']' :: rest2 => .ok (Json.arr (acc ++ [v]), rest2)
      | _ => .error "Expected comma or closing bracket in JSON array"

end

/-- `JSON.parse` on a whole string. -/
def jsonParse (s : String) : Except String Json :=
  match parseVal (2 * s.length + 8) s.data with
  | .error e => .error e
  | .ok (v, rest) =>
    match skipWs rest with
    | [] => .ok v
    | _ => .error "Unexpected non-whitespace character after JSON"

/-- The two-character string of an empty JSON object. -/
def emptyObjStr : String := String.mk [lbrace, rbrace]

/-- `parseBody` of `src/server.js` (lines 26–45): accumulate the body,
then `JSON.parse(body || "\x7b\x7d")` — an empty body parses as the
empty object; malformed JSON rejects with the parse error. -/
def parseBody (body : String) : Except String Json :=
  jsonParse (if body = "" then emptyObjStr else body)

/-! ## JavaScript value semantics used by the handlers -/

/-- JavaScript truthiness of a JSON value. -/
def jsTruthy : Json → Bool
  | .null => false
  | .bool b => b
  | .num n => n != 0
  | .str s => s != ""
  | .arr _ => true
  | .obj _ => true

/-- Property access `data.k` on a parsed JSON value: `none` is
JavaScript `undefined`; access on `null` throws a TypeError. -/
def jsGetProp (data : Json) (k : String) : Except String (Option Json) :=
  match data with
  | .null => .error "Cannot read properties of null"
  | .obj fields => .ok (lookupField fields k)
  | _ => .ok none

/-- `v || dflt` where an absent property (`undefined`) is `none`. -/
def orDefault (v : Option Json) (dflt : Json) : Json :=
  match v with
  | some j => if jsTruthy j then j else dflt
  | none => dflt

/-- Object spread `\x7b...data\x7d`: an object spreads its fields, a
string spreads to indexed one-character strings, an array to indexed
elements, and primitives spread to nothing. -/
def spreadFields : Json → Doc
  | .obj fields => fields
  | .str s => s.data.enum.map fun p => (toString p.1, Json.str (String.mk [p.2]))
  | .arr xs => xs.enum.map fun p => (toString p.1, p.2)
  | _ => []

/-! ## MongoDB collection operations (as invoked by `src/server.js`) -/

/-- Hex digit test, as accepted by the driver for ObjectId strings. -/
def isHexChar (c : Char) : Bool :=
  c.isDigit || ('a' ≤ c && c ≤ 'f') || ('A' ≤ c && c ≤ 'F')

/-- Lowercase an ASCII letter. -/
def lowerChar (c : Char) : Char :=
  if 'A' ≤ c && c ≤ 'Z' then Char.ofNat (c.toNat + 32) else c

/-- Lowercase a hex string, the canonical ObjectId form. -/
def hexLower (s : String) : String := String.mk (s.data.map lowerChar)

/-- `new ObjectId(s)`: accepts a 24-character hex string (normalised to
lowercase), throws a BSONError otherwise. -/
def objectIdParse (s : String) : Except String String :=
  if s.length = 24 && s.data.all isHexChar then .ok (hexLower s)
  else .error "input must be a 24 character hex string, 12 byte Uint8Array, or an integer"

/-- Does document `d` match the filter `_id: oid`? -/
def docMatchesId (oid : String) (d : Doc) : Bool :=
  match lookupField d "_id" with
  | some (Json.str s) => s = oid
  | _ => false

/-- `$set` applied to one document: each field of the update map is
written in order (replace if present, append if not). -/
def applySet (d : Doc) (sets : Doc) : Doc :=
  sets.foldl (fun acc p => setField acc p.1 p.2) d

/-- `findOneAndUpdate(filter by _id, $set, returnDocument: "after")`
without upsert: rewrite the first matching document and return it; if
nothing matches, the collection is unchanged and the result value is
null (`none`).  Never inserts. -/
def findOneAndUpdate (db : List Doc) (oid : String) (sets : Doc) :
    List Doc × Option Doc :=
  match db with
  | [] => ([], none)
  | d :: rest =>
    if docMatchesId oid d then
      (applySet d sets :: rest, some (applySet d sets))
    else
      let r := findOneAndUpdate rest oid sets
      (d :: r.1, r.2)

/-- `deleteOne(filter by _id)`: remove the first matching document (at
most one); no existence check, no error when nothing matches. -/
def deleteOne (db : List Doc) (oid : String) : List Doc :=
  match db with
  | [] => []
  | d :: rest => if docMatchesId oid d then rest else d :: deleteOne rest oid

/-! ## The request handler of `src/server.js` -/

/-- An inbound HTTP request as the handler observes it: the method, the
parsed `pathname`, the `id` query parameter (`none` when absent, as
`searchParams.get` returns null), and the raw body text. -/
structure Request where
  method : String
  pathname : String
  queryId : Option String
  body : String

/-- Outcome of handling one request: the collection afterwards, the
HTTP status written, and the JSON response body. -/
structure HandleResult where
  db : List Doc
  status : Nat
  body : Json

/-- A 400/404 response body: JSON.stringify of an error object. -/
def errBody (msg : String) : Json := Json.obj [("error", Json.str msg)]

/-- The insertOne acknowledgement the POST route serialises. -/
def insertAck (newId : String) : Json :=
  Json.obj [("acknowledged", Json.bool true), ("insertedId", Json.str newId)]

/-- The document built by the POST route (server.js lines 84–88): Mongo
stores it with the generated `_id`; `title` is `data.title || "Untitled"`,
`completed` is the literal `false`, `createdAt` is `new Date()`. -/
def newTodoDoc (title : Json) (now : Int) (newId : String) : Doc :=
  [("_id", Json.str newId), ("title", title),
   ("completed", Json.bool false), ("createdAt", Json.num now)]

/-- POST /todos (server.js lines 78–97): parse the body, insert the new
document, answer 201 with the insertion result; any thrown error
answers 400 with its message. -/
def postTodos (db : List Doc) (body : String) (now : Int) (newId : String) :
    HandleResult :=
  match parseBody body with
  | .error e => ⟨db, 400, errBody e⟩
  | .ok data =>
    match jsGetProp data "title" with
    | .error e => ⟨db, 400, errBody e⟩
    | .ok t =>
      ⟨db ++ [newTodoDoc (orDefault t (Json.str "Untitled")) now newId],
       201, insertAck newId⟩

/-- Is the id query parameter falsy (`!id`): absent or empty? -/
def idFalsy : Option String → Bool
  | none => true
  | some s => s == ""

/-- PUT /todos (server.js lines 102–130): require a truthy `id`, parse
the body, then build the ObjectId and `findOneAndUpdate` with
`$set: \x7b...data\x7d`, answering 200 with the post-update document
(null when nothing matched); any thrown error answers 400.  The
ObjectId is constructed at the call (line 118), after `parseBody`
(line 114), so a parse failure wins over an invalid id. -/
def putTodos (db : List Doc) (queryId : Option String) (body : String) :
    HandleResult :=
  if idFalsy queryId then ⟨db, 400, errBody "Missing ID"⟩
  else
    match parseBody body with
    | .error e => ⟨db, 400, errBody e⟩
    | .ok data =>
      match objectIdParse (queryId.getD "") with
      | .error e => ⟨db, 400, errBody e⟩
      | .ok oid =>
        let r := findOneAndUpdate db oid (spreadFields data)
        ⟨r.1, 200, match r.2 with | some d => Json.obj d | none => Json.null⟩

/-- DELETE /todos (server.js lines 135–154): require a truthy `id`,
build the ObjectId, `deleteOne`, and answer 200 with the confirmation
message whether or not anything matched; any thrown error answers 400. -/
def deleteTodos (db : List Doc) (queryId : Option String) : HandleResult :=
  if idFalsy queryId then ⟨db, 400, errBody "Missing ID"⟩
  else
    match objectIdParse (queryId.getD "") with
    | .error e => ⟨db, 400, errBody e⟩
    | .ok oid =>
      ⟨deleteOne db oid, 200, Json.obj [("message", Json.str "Todo deleted")]⟩

/-- The full request dispatcher (server.js lines 50–161): five fixed
(method, pathname) routes, then the 404 fallback. -/
def handleRequest (db : List Doc) (req : Request) (now : Int) (newId : String) :
    HandleResult :=
  if req.method = "GET" ∧ req.pathname = "/" then
    ⟨db, 200, Json.obj [("message", Json.str "Node.js To-Do API running...")]⟩
  else if req.method = "GET" ∧ req.pathname = "/todos" then
    ⟨db, 200, Json.arr (db.map Json.obj)⟩
  else if req.method = "POST" ∧ req.pathname = "/todos" then
    postTodos db req.body now newId
  else if req.method = "PUT" ∧ req.pathname = "/todos" then
    putTodos db req.queryId req.body
  else if req.method = "DELETE" ∧ req.pathname = "/todos" then
    deleteTodos db req.queryId
  else
    ⟨db, 404, errBody "Route not found"⟩

/-! ## The connection manager of `src/db.js` -/

/-- The handle `client.db("todo_api")` returns. -/
structure DBHandle where
  name : String

/-- `connectDB` (db.js lines 10–18): `client.connect()` is an external
effect, modelled by its outcome `attempt`; on success the module-level
`db` is set to the bound logical database and a success line is logged;
on failure the error is logged, the stored handle is left as it was,
and the function still returns normally (the catch swallows the
error — the return type is a plain pair, not `Except`). -/
def connectDB (stored : Option DBHandle) (attempt : Except String Unit) :
    Option DBHandle × String :=
  match attempt with
  | .ok _ => (some ⟨"todo_api"⟩, "MongoDB connected")
  | .error e => (stored, "DB connection error: " ++ e)

/-- `getDB` (db.js line 20): returns the stored handle, `none` while
unset. -/
def getDB (stored : Option DBHandle) : Option DBHandle := stored

/-! ## General lemmas about the embedded operations -/

theorem lookupField_setField (d : Doc) (k : String) (v : Json) (k2 : String) :
    lookupField (setField d k v) k2 = if k2 = k then some v else lookupField d k2 := by
  induction d with
  | nil =>
    rcases eq_or_ne k2 k with h | h
    · subst h; simp [setField, lookupField]
    · simp [setField, lookupField, h, Ne.symm h]
  | cons p rest ih =>
    obtain ⟨k0, v0⟩ := p
    by_cases h0 : k0 = k
    · subst h0
      rcases eq_or_ne k2 k0 with h2 | h2
      · subst h2; simp [setField, lookupField]
      · simp [setField, lookupField, h2, Ne.symm h2]
    · rcases eq_or_ne k2 k0 with h2 | h2
      · subst h2
        simp [setField, lookupField, h0, Ne.symm h0]
      · simp [setField, lookupField, h0, h2, Ne.symm h2, ih]

theorem lookupField_applySet (d : Doc) (sets : Doc) (k : String) :
    lookupField (applySet d sets) k =
      match assocLast sets k with
      | some v => some v
      | none => lookupField d k := by
  induction sets generalizing d with
  | nil => simp [applySet, assocLast]
  | cons p rest ih =>
    obtain ⟨k0, v0⟩ := p
    have hstep : applySet d ((k0, v0) :: rest) = applySet (setField d k0 v0) rest := rfl
    rw [hstep, ih]
    cases h : assocLast rest k with
    | some v => simp [assocLast, h]
    | none =>
      simp only [assocLast, h, lookupField_setField]
      rcases eq_or_ne k k0 with hk | hk
      · subst hk; simp
      · simp [hk, Ne.symm hk]

theorem findOneAndUpdate_nomatch (db : List Doc) (oid : String) (sets : Doc)
    (h : ∀ d ∈ db, docMatchesId oid d = false) :
    findOneAndUpdate db oid sets = (db, none) := by
  induction db with
  | nil => rfl
  | cons d rest ih =>
    have hd := h d (List.mem_cons_self d rest)
    have hrest : ∀ d2 ∈ rest, docMatchesId oid d2 = false :=
      fun d2 hm => h d2 (List.mem_cons_of_mem d hm)
    simp [findOneAndUpdate, hd, ih hrest]

theorem findOneAndUpdate_found (pre post : List Doc) (d : Doc) (oid : String) (sets : Doc)
    (hd : docMatchesId oid d = true)
    (hpre : ∀ d2 ∈ pre, docMatchesId oid d2 = false) :
    findOneAndUpdate (pre ++ d :: post) oid sets =
      (pre ++ applySet d sets :: post, some (applySet d sets)) := by
  induction pre with
  | nil => simp [findOneAndUpdate, hd]
  | cons p rest ih =>
    have hp := hpre p (List.mem_cons_self p rest)
    have hrest : ∀ d2 ∈ rest, docMatchesId oid d2 = false :=
      fun d2 hm => hpre d2 (List.mem_cons_of_mem p hm)
    simp [findOneAndUpdate, hp, ih hrest]

theorem deleteOne_nomatch (db : List Doc) (oid : String)
    (h : ∀ d ∈ db, docMatchesId oid d = false) :
    deleteOne db oid = db := by
  induction db with
  | nil => rfl
  | cons d rest ih =>
    have hd := h d (List.mem_cons_self d rest)
    have hrest : ∀ d2 ∈ rest, docMatchesId oid d2 = false :=
      fun d2 hm => h d2 (List.mem_cons_of_mem d hm)
    simp [deleteOne, hd, ih hrest]

theorem deleteOne_found (pre post : List Doc) (d : Doc) (oid : String)
    (hd : docMatchesId oid d = true)
    (hpre : ∀ d2 ∈ pre, docMatchesId oid d2 = false) :
    deleteOne (pre ++ d :: post) oid = pre ++ post := by
  induction pre with
  | nil => simp [deleteOne, hd]
  | cons p rest ih =>
    have hp := hpre p (List.mem_cons_self p rest)
    have hrest : ∀ d2 ∈ rest, docMatchesId oid d2 = false :=
      fun d2 hm => hpre d2 (List.mem_cons_of_mem p hm)
    simp [deleteOne, hp, ih hrest]

theorem objectIdParse_ne_empty (s oid : String) (h : objectIdParse s = .ok oid) :
    s ≠ "" := by
  intro hs
  subst hs
  simp [objectIdParse] at h

theorem handleRequest_post (db : List Doc) (q : Option String) (body : String)
    (now : Int) (newId : String) :
    handleRequest db ⟨"POST", "/todos", q, body⟩ now newId = postTodos db body now newId := rfl

theorem handleRequest_put (db : List Doc) (q : Option String) (body : String)
    (now : Int) (newId : String) :
    handleRequest db ⟨"PUT", "/todos", q, body⟩ now newId = putTodos db q body := rfl

theorem handleRequest_delete (db : List Doc) (q : Option String) (body : String)
    (now : Int) (newId : String) :
    handleRequest db ⟨"DELETE", "/todos", q, body⟩ now newId = deleteTodos db q := rfl

theorem idFalsy_some_false (s : String) (h : s ≠ "") : idFalsy (some s) = false := by
  simp [idFalsy]
  exact h

theorem putTodos_some (db : List Doc) (idStr : String) (body : String) (hne : idStr ≠ "") :
    putTodos db (some idStr) body =
      match parseBody body with
      | .error e => ⟨db, 400, errBody e⟩
      | .ok data =>
        match objectIdParse idStr with
        | .error e => ⟨db, 400, errBody e⟩
        | .ok oid =>
          let r := findOneAndUpdate db oid (spreadFields data)
          ⟨r.1, 200, match r.2 with | some d => Json.obj d | none => Json.null⟩ := by
  simp [putTodos, idFalsy_some_false idStr hne]

theorem putTodos_found (pre post : List Doc) (d fields : Doc) (idStr oid body : String)
    (hid : objectIdParse idStr = .ok oid)
    (hd : docMatchesId oid d = true)
    (hpre : ∀ d2 ∈ pre, docMatchesId oid d2 = false)
    (hbody : parseBody body = .ok (Json.obj fields)) :
    putTodos (pre ++ d :: post) (some idStr) body =
      ⟨pre ++ applySet d fields :: post, 200, Json.obj (applySet d fields)⟩ := by
  rw [putTodos_some _ _ _ (objectIdParse_ne_empty _ _ hid), hbody, hid]
  simp [spreadFields, findOneAndUpdate_found pre post d oid fields hd hpre]

/-! ## Concrete example values used by witnesses and counterexamples -/

/-- A canonical ObjectId hex string. -/
def exId : String := "0123456789abcdef01234567"

/-- A second, distinct ObjectId hex string. -/
def exId2 : String := "ffffffffffffffffffffffff"

/-- A stored todo item as the POST route creates it. -/
def exDoc : Doc :=
  [("_id", Json.str exId), ("title", Json.str "Buy milk"),
   ("completed", Json.bool false), ("createdAt", Json.num 5)]

/-! ## The claims -/

/-- **C1**: for every stored item and every `PUT /todos?id=<id>` whose body
is a partial field map, the operation overwrites exactly the fields present
in the body (last value for a repeated key, as `JSON.parse` keeps), leaves
all other fields of that item untouched and all other items unchanged, and
the 200 response body is the post-update document. -/
theorem put_partial_field_overwrite
    (pre post : List Doc) (d fields : Doc) (idStr oid body : String)
    (now : Int) (newId : String)
    (hid : objectIdParse idStr = .ok oid)
    (hd : docMatchesId oid d = true)
    (hpre : ∀ d2 ∈ pre, docMatchesId oid d2 = false)
    (hbody : parseBody body = .ok (Json.obj fields)) :
    handleRequest (pre ++ d :: post) ⟨"PUT", "/todos", some idStr, body⟩ now newId =
      ⟨pre ++ applySet d fields :: post, 200, Json.obj (applySet d fields)⟩ ∧
    (∀ k, assocLast fields k = none →
      lookupField (applySet d fields) k = lookupField d k) ∧
    (∀ k v, assocLast fields k = some v →
      lookupField (applySet d fields) k = some v) := by
  refine ⟨?_, ?_, ?_⟩
  · rw [handleRequest_put]
    exact putTodos_found pre post d fields idStr oid body hid hd hpre hbody
  · intro k hk
    rw [lookupField_applySet, hk]
  · intro k v hk
    rw [lookupField_applySet, hk]

/-- C1 witness: updating the stored item with body
`\x7b"completed": true\x7d` flips `completed`, keeps the title, and
answers 200 with the updated document. -/
theorem put_partial_field_overwrite_witness :
    handleRequest [exDoc] ⟨"PUT", "/todos", some exId, "\x7b\"completed\": true\x7d"⟩ 9 exId2 =
      ⟨[[("_id", Json.str exId), ("title", Json.str "Buy milk"),
         ("completed", Json.bool true), ("createdAt", Json.num 5)]],
       200,
       Json.obj [("_id", Json.str exId), ("title", Json.str "Buy milk"),
         ("completed", Json.bool true), ("createdAt", Json.num 5)]⟩ :=
  (put_partial_field_overwrite [] [] exDoc [("completed", Json.bool true)] exId exId
      "\x7b\"completed\": true\x7d" 9 exId2 (by rfl) (by rfl)
      (by intro d2 h; cases h) (by rfl)).1

/-- A POST body carrying an explicit `completed` value. -/
def c2Body : String := "\x7b\"completed\": true\x7d"

/-- **C2** counterexample: a POST body with `"completed": true` still
inserts a document with `completed: false` — the route hard-codes
`completed: false` (server.js line 86) instead of defaulting only when
absent. -/
theorem post_completed_value_ignored_cex :
    parseBody c2Body = .ok (Json.obj [("completed", Json.bool true)]) ∧
    handleRequest [] ⟨"POST", "/todos", none, c2Body⟩ 5 exId =
      ⟨[[("_id", Json.str exId), ("title", Json.str "Untitled"),
         ("completed", Json.bool false), ("createdAt", Json.num 5)]],
       201, insertAck exId⟩ ∧
    lookupField [("_id", Json.str exId), ("title", Json.str "Untitled"),
        ("completed", Json.bool false), ("createdAt", Json.num 5)] "completed" ≠
      some (Json.bool true) := by
  refine ⟨rfl, rfl, ?_⟩
  intro h
  simp [lookupField] at h

/-- **C2 amended**: for every POST /todos body that parses (and is not
JSON null), the inserted item's `completed` is always `false`, whatever
the body contains; only `title` is defaulted (and only when falsy), and
`createdAt` is always the current time. -/
theorem post_completed_always_false
    (db : List Doc) (body : String) (data : Json) (t : Option Json)
    (now : Int) (newId : String)
    (hbody : parseBody body = .ok data)
    (ht : jsGetProp data "title" = .ok t) :
    handleRequest db ⟨"POST", "/todos", none, body⟩ now newId =
      ⟨db ++ [newTodoDoc (orDefault t (Json.str "Untitled")) now newId],
       201, insertAck newId⟩ ∧
    lookupField (newTodoDoc (orDefault t (Json.str "Untitled")) now newId) "completed" =
      some (Json.bool false) := by
  constructor
  · rw [handleRequest_post]
    simp [postTodos, hbody, ht]
  · rfl

/-- C2 amended claim witness at the counterexample body. -/
theorem post_completed_always_false_witness :
    handleRequest [] ⟨"POST", "/todos", none, c2Body⟩ 5 exId =
      ⟨[[("_id", Json.str exId), ("title", Json.str "Untitled"),
         ("completed", Json.bool false), ("createdAt", Json.num 5)]],
       201, insertAck exId⟩ :=
  (post_completed_always_false [] c2Body (Json.obj [("completed", Json.bool true)])
      none 5 exId (by rfl) (by rfl)).1

/-- **C3**: POST /todos with an empty body or body `\x7b\x7d` inserts an
item with the placeholder title "Untitled", `completed` false, and a
`createdAt` equal to the handling time `now`, which is at or after the
arrival time; the 201 response is the insertion acknowledgement. -/
theorem post_empty_body_defaults
    (db : List Doc) (body : String) (now arrival : Int) (newId : String)
    (hbody : body = "" ∨ body = emptyObjStr)
    (harr : arrival ≤ now) :
    handleRequest db ⟨"POST", "/todos", none, body⟩ now newId =
      ⟨db ++ [newTodoDoc (Json.str "Untitled") now newId], 201, insertAck newId⟩ ∧
    lookupField (newTodoDoc (Json.str "Untitled") now newId) "title" =
      some (Json.str "Untitled") ∧
    lookupField (newTodoDoc (Json.str "Untitled") now newId) "completed" =
      some (Json.bool false) ∧
    lookupField (newTodoDoc (Json.str "Untitled") now newId) "createdAt" =
      some (Json.num now) ∧
    arrival ≤ now := by
  rcases hbody with h | h <;> subst h <;> exact ⟨rfl, rfl, rfl, rfl, harr⟩

/-- C3 witness: empty body at arrival time 3 handled at time 7. -/
theorem post_empty_body_defaults_witness :
    handleRequest [] ⟨"POST", "/todos", none, ""⟩ 7 exId =
      ⟨[[("_id", Json.str exId), ("title", Json.str "Untitled"),
         ("completed", Json.bool false), ("createdAt", Json.num 7)]],
       201, insertAck exId⟩ ∧ (3 : Int) ≤ 7 :=
  ⟨(post_empty_body_defaults [] "" 7 3 exId (Or.inl rfl) (by norm_num)).1, by norm_num⟩

/-- A PUT body containing a `createdAt` field. -/
def c4Body : String := "\x7b\"createdAt\": 999\x7d"

/-- **C4** counterexample: a PUT whose body contains `createdAt` does alter
the stored `createdAt` — `$set: \x7b...data\x7d` (server.js line 119)
applies every body field with no filtering, so the claim's "whatever its
body" fails. -/
theorem put_createdAt_overwritten_cex :
    lookupField exDoc "createdAt" = some (Json.num 5) ∧
    handleRequest [exDoc] ⟨"PUT", "/todos", some exId, c4Body⟩ 0 exId2 =
      ⟨[[("_id", Json.str exId), ("title", Json.str "Buy milk"),
         ("completed", Json.bool false), ("createdAt", Json.num 999)]],
       200,
       Json.obj [("_id", Json.str exId), ("title", Json.str "Buy milk"),
         ("completed", Json.bool false), ("createdAt", Json.num 999)]⟩ ∧
    some (Json.num 999) ≠ some (Json.num 5) := by
  refine ⟨rfl, rfl, ?_⟩
  intro h
  injection h with h1
  injection h1 with h2
  omega

/-- **C4 amended**: `createdAt` is assigned at creation, and no PUT whose
body does not contain a `createdAt` field alters it (a PUT body containing
`createdAt` overwrites it like any other field, per the counterexample). -/
theorem put_preserves_createdAt_when_absent
    (pre post : List Doc) (d fields : Doc) (idStr oid body : String)
    (now : Int) (newId : String)
    (hid : objectIdParse idStr = .ok oid)
    (hd : docMatchesId oid d = true)
    (hpre : ∀ d2 ∈ pre, docMatchesId oid d2 = false)
    (hbody : parseBody body = .ok (Json.obj fields))
    (hnone : assocLast fields "createdAt" = none) :
    (handleRequest (pre ++ d :: post) ⟨"PUT", "/todos", some idStr, body⟩ now newId).db =
      pre ++ applySet d fields :: post ∧
    lookupField (applySet d fields) "createdAt" = lookupField d "createdAt" := by
  constructor
  · rw [handleRequest_put, putTodos_found pre post d fields idStr oid body hid hd hpre hbody]
  · rw [lookupField_applySet, hnone]

/-- C4 amended claim witness: a title-only PUT keeps `createdAt` 5. -/
theorem put_preserves_createdAt_when_absent_witness :
    (handleRequest [exDoc] ⟨"PUT", "/todos", some exId, "\x7b\"title\": \"Milk 2\"\x7d"⟩
        0 exId2).db =
      [[("_id", Json.str exId), ("title", Json.str "Milk 2"),
        ("completed", Json.bool false), ("createdAt", Json.num 5)]] ∧
    lookupField (applySet exDoc [("title", Json.str "Milk 2")]) "createdAt" =
      some (Json.num 5) :=
  ⟨(put_preserves_createdAt_when_absent [] [] exDoc [("title", Json.str "Milk 2")]
      exId exId "\x7b\"title\": \"Milk 2\"\x7d" 0 exId2 (by rfl) (by rfl)
      (by intro d2 h; cases h) (by rfl) (by rfl)).1,
   (put_preserves_createdAt_when_absent [] [] exDoc [("title", Json.str "Milk 2")]
      exId exId "\x7b\"title\": \"Milk 2\"\x7d" 0 exId2 (by rfl) (by rfl)
      (by intro d2 h; cases h) (by rfl) (by rfl)).2⟩

/-- **C5**: a PUT without an `id` query parameter answers 400 with the
message "Missing ID" and leaves the collection unchanged; and a PUT whose
id matches no stored item leaves the collection unchanged (no upsert),
whatever the body. -/
theorem put_missing_id_and_no_upsert
    (db : List Doc) (now : Int) (newId : String) :
    (∀ body, handleRequest db ⟨"PUT", "/todos", none, body⟩ now newId =
      ⟨db, 400, errBody "Missing ID"⟩) ∧
    (∀ idStr body,
      (∀ oid, objectIdParse idStr = .ok oid → ∀ d ∈ db, docMatchesId oid d = false) →
      (handleRequest db ⟨"PUT", "/todos", some idStr, body⟩ now newId).db = db) := by
  constructor
  · intro body
    rfl
  · intro idStr body hno
    rw [handleRequest_put]
    by_cases hne : idStr = ""
    · subst hne
      rfl
    · rw [putTodos_some db idStr body hne]
      cases hpb : parseBody body with
      | error e => rfl
      | ok data =>
        cases hop : objectIdParse idStr with
        | error e => rfl
        | ok oid =>
          simp [findOneAndUpdate_nomatch db oid (spreadFields data) (hno oid hop)]

/-- C5 witness: missing id on a one-item collection, and a valid but
absent id with an empty-object body. -/
theorem put_missing_id_and_no_upsert_witness :
    handleRequest [exDoc] ⟨"PUT", "/todos", none, ""⟩ 0 exId =
      ⟨[exDoc], 400, errBody "Missing ID"⟩ ∧
    (handleRequest [exDoc] ⟨"PUT", "/todos", some exId2, emptyObjStr⟩ 0 exId).db = [exDoc] :=
  ⟨(put_missing_id_and_no_upsert [exDoc] 0 exId).1 "",
   (put_missing_id_and_no_upsert [exDoc] 0 exId).2 exId2 emptyObjStr (by
      intro oid hoid
      have hoid2 : (Except.ok exId2 : Except String String) = .ok oid := hoid
      injection hoid2 with h
      subst h
      intro d hd
      have hde : d = exDoc := by simpa using hd
      subst hde
      rfl)⟩

/-- **C6** counterexample: a DELETE with the ill-formed id "zz" matches no
stored item, yet answers 400 (the ObjectId constructor throws), not 200
with the confirmation message, so "the response is still 200" fails. -/
theorem delete_invalid_id_cex :
    handleRequest [] ⟨"DELETE", "/todos", some "zz", ""⟩ 0 exId =
      ⟨[], 400,
       errBody "input must be a 24 character hex string, 12 byte Uint8Array, or an integer"⟩ ∧
    errBody "input must be a 24 character hex string, 12 byte Uint8Array, or an integer" ≠
      Json.obj [("message", Json.str "Todo deleted")] ∧
    (400 : Nat) ≠ 200 := by
  refine ⟨rfl, ?_, by norm_num⟩
  intro h
  injection h with h1
  injection h1 with h2 h3
  injection h2 with h4 h5
  exact absurd h4 (by decide)

/-- **C6 amended**: for every DELETE /todos?id=<id> with a well-formed
(24-hex-character) id, exactly the first item matching the id is removed
and every other item is untouched; when no item matches, the collection is
unchanged and the response is still 200 with the confirmation message.
(An ill-formed id instead answers 400, per the counterexample.) -/
theorem delete_exact_removal
    (idStr oid : String) (now : Int) (newId : String)
    (hid : objectIdParse idStr = .ok oid) :
    (∀ body pre d post, docMatchesId oid d = true →
      (∀ d2 ∈ pre, docMatchesId oid d2 = false) →
      handleRequest (pre ++ d :: post) ⟨"DELETE", "/todos", some idStr, body⟩ now newId =
        ⟨pre ++ post, 200, Json.obj [("message", Json.str "Todo deleted")]⟩) ∧
    (∀ body db, (∀ d ∈ db, docMatchesId oid d = false) →
      handleRequest db ⟨"DELETE", "/todos", some idStr, body⟩ now newId =
        ⟨db, 200, Json.obj [("message", Json.str "Todo deleted")]⟩) := by
  have hne := objectIdParse_ne_empty _ _ hid
  have hred : ∀ db body, handleRequest db ⟨"DELETE", "/todos", some idStr, body⟩ now newId =
      ⟨deleteOne db oid, 200, Json.obj [("message", Json.str "Todo deleted")]⟩ := by
    intro db body
    rw [handleRequest_delete]
    simp [deleteTodos, idFalsy_some_false idStr hne, hid]
  constructor
  · intro body pre d post hd hpre
    rw [hred, deleteOne_found pre post d oid hd hpre]
  · intro body db hno
    rw [hred, deleteOne_nomatch db oid hno]

/-- C6 amended claim witness: deleting the stored item empties the
collection; deleting a valid absent id leaves it unchanged with 200. -/
theorem delete_exact_removal_witness :
    handleRequest [exDoc] ⟨"DELETE", "/todos", some exId, ""⟩ 0 exId2 =
      ⟨[], 200, Json.obj [("message", Json.str "Todo deleted")]⟩ ∧
    handleRequest [exDoc] ⟨"DELETE", "/todos", some exId2, ""⟩ 0 exId2 =
      ⟨[exDoc], 200, Json.obj [("message", Json.str "Todo deleted")]⟩ :=
  ⟨(delete_exact_removal exId exId 0 exId2 (by rfl)).1 "" [] exDoc []
      (by rfl) (by intro d2 h2; cases h2),
   (delete_exact_removal exId2 exId2 0 exId2 (by rfl)).2 "" [exDoc] (by
      intro d hd
      have hde : d = exDoc := by simpa using hd
      subst hde
      rfl)⟩

/-- **C7**: an empty request body parses as the empty object; a body that
is malformed JSON makes `parseBody` reject, and both the POST route and the
PUT route (when an id is present) catch the rejection and answer 400
carrying the failure's message text, with no write to the collection. -/
theorem body_parse_error_handling
    (db : List Doc) (now : Int) (newId : String) :
    parseBody "" = .ok (Json.obj []) ∧
    (∀ body e, parseBody body = .error e →
      handleRequest db ⟨"POST", "/todos", none, body⟩ now newId =
        ⟨db, 400, errBody e⟩) ∧
    (∀ idStr body e, idStr ≠ "" → parseBody body = .error e →
      handleRequest db ⟨"PUT", "/todos", some idStr, body⟩ now newId =
        ⟨db, 400, errBody e⟩) := by
  refine ⟨rfl, ?_, ?_⟩
  · intro body e hpe
    rw [handleRequest_post]
    simp [postTodos, hpe]
  · intro idStr body e hne hpe
    rw [handleRequest_put, putTodos_some db idStr body hne, hpe]

/-- C7 witness: the one-character body of a lone opening brace is
malformed; both write routes answer 400 with the parse message and leave
the collection unchanged. -/
theorem body_parse_error_handling_witness :
    parseBody "" = .ok (Json.obj []) ∧
    handleRequest [exDoc] ⟨"POST", "/todos", none, "\x7b"⟩ 0 exId2 =
      ⟨[exDoc], 400, errBody "Unexpected end of JSON input"⟩ ∧
    handleRequest [exDoc] ⟨"PUT", "/todos", some exId, "\x7b"⟩ 0 exId2 =
      ⟨[exDoc], 400, errBody "Unexpected end of JSON input"⟩ :=
  ⟨(body_parse_error_handling [exDoc] 0 exId2).1,
   (body_parse_error_handling [exDoc] 0 exId2).2.1 "\x7b"
      "Unexpected end of JSON input" (by rfl),
   (body_parse_error_handling [exDoc] 0 exId2).2.2 exId "\x7b"
      "Unexpected end of JSON input" (by decide) (by rfl)⟩

/-- **C8**: every request whose (method, pathname) pair is none of the five
defined routes answers exactly 404 with the "Route not found" error body
and leaves the collection untouched (no database operation happens). -/
theorem unknown_route_404
    (db : List Doc) (req : Request) (now : Int) (newId : String)
    (h : ¬ ((req.method = "GET" ∧ req.pathname = "/") ∨
            (req.method = "GET" ∧ req.pathname = "/todos") ∨
            (req.method = "POST" ∧ req.pathname = "/todos") ∨
            (req.method = "PUT" ∧ req.pathname = "/todos") ∨
            (req.method = "DELETE" ∧ req.pathname = "/todos"))) :
    handleRequest db req now newId = ⟨db, 404, errBody "Route not found"⟩ := by
  rw [not_or, not_or, not_or, not_or] at h
  obtain ⟨h1, h2, h3, h4, h5⟩ := h
  unfold handleRequest
  rw [if_neg h1, if_neg h2, if_neg h3, if_neg h4, if_neg h5]

/-- C8 witness: `PATCH /todos` is not a defined route. -/
theorem unknown_route_404_witness :
    handleRequest [exDoc] ⟨"PATCH", "/todos", none, ""⟩ 0 exId =
      ⟨[exDoc], 404, errBody "Route not found"⟩ :=
  unknown_route_404 [exDoc] ⟨"PATCH", "/todos", none, ""⟩ 0 exId (by decide)

/-- **C9**: `connectDB` never signals failure to its caller: on a failed
connection attempt it logs the error and returns normally (its result is a
plain pair, not an exception) with the stored handle left as it was, so
`getDB` yields `none` after any sequence of failed attempts — until a
`connectDB` call succeeds and stores the handle. -/
theorem connectDB_failure_is_silent :
    (∀ stored e, connectDB stored (.error e) = (stored, "DB connection error: " ++ e)) ∧
    (∀ e, getDB (connectDB none (.error e)).1 = none) ∧
    (∀ errs : List String,
      getDB (errs.foldl (fun st e => (connectDB st (.error e)).1) none) = none) ∧
    (∀ stored, getDB (connectDB stored (.ok ())).1 = some ⟨"todo_api"⟩) := by
  refine ⟨fun stored e => rfl, fun e => rfl, ?_, fun stored => rfl⟩
  intro errs
  induction errs with
  | nil => rfl
  | cons a t ih => exact ih

/-- **C10**: for every POST body whose `title` field is present but falsy
(the empty string, false, 0, or null — exactly the falsy JSON values of
those shapes), the inserted item's title is the placeholder "Untitled";
the supplied title is kept only when truthy. -/
theorem post_falsy_title_replaced
    (db : List Doc) (body : String) (fields : Doc) (t : Json)
    (now : Int) (newId : String)
    (hbody : parseBody body = .ok (Json.obj fields))
    (ht : lookupField fields "title" = some t) :
    handleRequest db ⟨"POST", "/todos", none, body⟩ now newId =
      ⟨db ++ [newTodoDoc (if jsTruthy t then t else Json.str "Untitled") now newId],
       201, insertAck newId⟩ ∧
    (jsTruthy (Json.str "") = false ∧ jsTruthy (Json.bool false) = false ∧
     jsTruthy (Json.num 0) = false ∧ jsTruthy Json.null = false) ∧
    (jsTruthy t = false →
      lookupField (newTodoDoc (if jsTruthy t then t else Json.str "Untitled") now newId)
        "title" = some (Json.str "Untitled")) ∧
    (jsTruthy t = true →
      lookupField (newTodoDoc (if jsTruthy t then t else Json.str "Untitled") now newId)
        "title" = some t) := by
  refine ⟨?_, ⟨rfl, rfl, rfl, rfl⟩, ?_, ?_⟩
  · rw [handleRequest_post]
    simp [postTodos, hbody, jsGetProp, ht, orDefault]
  · intro hf
    rw [hf]
    rfl
  · intro htr
    rw [htr]
    rfl

/-- C10 witness: body with the empty-string title inserts "Untitled". -/
theorem post_falsy_title_replaced_witness :
    handleRequest [] ⟨"POST", "/todos", none, "\x7b\"title\": \"\"\x7d"⟩ 7 exId =
      ⟨[[("_id", Json.str exId), ("title", Json.str "Untitled"),
         ("completed", Json.bool false), ("createdAt", Json.num 7)]],
       201, insertAck exId⟩ :=
  (post_falsy_title_replaced [] "\x7b\"title\": \"\"\x7d" [("title", Json.str "")]
      (Json.str "") 7 exId (by rfl) (by rfl)).1
